import Mathlib

/-!
Verification development for the eBPF-for-Windows execution-context driver
(ebpfcore/ebpf_drv.c) and the netebpfext WFP filter-context lifetime
machinery (netebpfext/net_ebpf_ext.h).

The C code is shallowly embedded: pure control flow becomes Lean functions,
kernel-supplied fallible calls (buffer retrieval, allocation, access check)
become explicit parameters recording their outcome, and the observable side
effects of a code path (which buffers were retrieved, whether the handler ran,
how many times the request was completed, which frees happened) are recorded
in result structures.
-/

/-- NTSTATUS codes appearing in the embedded driver paths.  Codes the driver
only forwards (for example failures of buffer retrieval) are covered by
`otherError`. -/
inductive NtStatus
  | success
  | pending
  | invalidParameter
  | accessDenied
  | bufferTooSmall
  | insufficientResources
  | invalidDeviceRequest
  | otherError (code : Nat)
deriving DecidableEq, Repr

/-- NT_SUCCESS: a nonnegative NTSTATUS.  Of the embedded codes only
STATUS_SUCCESS and STATUS_PENDING are nonnegative; every other code the
embedded paths produce is an error code. -/
def NT_SUCCESS : NtStatus → Bool
  | NtStatus.success => true
  | NtStatus.pending => true
  | _ => false

/-- GENERIC_ALL access mask (0x10000000). -/
def GENERIC_ALL : Nat := 0x10000000

/-- CTL_CODE macro from ebpf_drv.c line 33. -/
def CTL_CODE (deviceType access function method : Nat) : Nat :=
  (deviceType <<< 16) ||| (access <<< 14) ||| (function <<< 2) ||| method

/-- FILE_DEVICE_NETWORK, the device type used for EBPF_IOCTL_TYPE. -/
def FILE_DEVICE_NETWORK : Nat := 0x12

/-- METHOD_BUFFERED transfer type. -/
def METHOD_BUFFERED : Nat := 0

/-- FILE_ANY_ACCESS. -/
def FILE_ANY_ACCESS : Nat := 0

/-- IOCTL_EBPF_CTL_METHOD_BUFFERED from ebpf_drv.c line 40. -/
def IOCTL_EBPF_CTL_METHOD_BUFFERED : Nat :=
  CTL_CODE FILE_DEVICE_NETWORK FILE_ANY_ACCESS 0x900 METHOD_BUFFERED

/-- Modelled from the spec: the size of struct _ebpf_operation_header (the
wire header carrying a length and a command identifier; the struct is
declared outside src).  The dispatcher only compares buffer lengths against
this fixed positive constant, so its exact value is immaterial; two uint16
fields give 4 bytes. -/
def sizeof_ebpf_operation_header : Nat := 4

/-- The per-command properties returned by
ebpf_core_get_protocol_handler_properties: minimum request size, minimum
reply size, async flag, privileged flag. -/
structure HandlerProps where
  minimum_request_size : Nat
  minimum_reply_size : Nat
  async : Bool
  privileged : Bool
deriving DecidableEq, Repr

/-- Outcomes of the kernel- and core-supplied calls made by
_ebpf_driver_io_device_control, passed in as an environment so the embedded
dispatcher is a pure function of them.  `props` is meaningful only when
`getPropsStatus = success`. -/
structure DispatchEnv where
  retrieveInputStatus : NtStatus
  inputBufferNull : Bool
  actualInputLength : Nat
  getPropsStatus : NtStatus
  props : HandlerProps
  callerPrivileged : Bool
  retrieveOutputStatus : NtStatus
  outputBufferNull : Bool
  actualOutputLength : Nat
  invokeStatus : NtStatus
deriving DecidableEq, Repr

/-- Observable effects of one invocation of _ebpf_driver_io_device_control:
the status it concludes with, whether the protocol handler was invoked,
whether the output buffer was retrieved (the only read of the output
capacity), whether a reference on the WDF request was acquired and the
request marked cancelable, whether the Done path unmarked and dereferenced,
and how many times the dispatcher itself completed the request. -/
structure DispatchOutcome where
  status : NtStatus
  handlerInvoked : Bool
  outputRetrieved : Bool
  refAcquired : Bool
  markedCancelable : Bool
  unmarkedCancelable : Bool
  dereferenced : Bool
  completions : Nat
deriving DecidableEq, Repr

/-- The Done label of _ebpf_driver_io_device_control (lines 531-541): if the
status is not STATUS_PENDING then, when a request reference had been
acquired, the cancelable marker is removed and the reference released, and
in all non-pending cases the request is completed exactly once; a pending
status leaves the request untouched. -/
def dispatchDone
    (status : NtStatus) (refAcquired marked invoked outputRetrieved : Bool) :
    DispatchOutcome :=
  if status = NtStatus.pending then
    { status := status, handlerInvoked := invoked,
      outputRetrieved := outputRetrieved, refAcquired := refAcquired,
      markedCancelable := marked, unmarkedCancelable := false,
      dereferenced := false, completions := 0 }
  else
    { status := status, handlerInvoked := invoked,
      outputRetrieved := outputRetrieved, refAcquired := refAcquired,
      markedCancelable := marked, unmarkedCancelable := refAcquired,
      dereferenced := refAcquired, completions := 1 }

/-- Lines 499-518 of ebpf_drv.c: on the async path a reference is acquired
and the request marked cancelable before the handler invocation; the
invocation status then flows to the Done label. -/
def dispatchInvoke (env : DispatchEnv) (outputRetrieved : Bool) :
    DispatchOutcome :=
  dispatchDone env.invokeStatus env.props.async env.props.async true
    outputRetrieved

/-- Embedding of _ebpf_driver_io_device_control (ebpf_drv.c lines 395-542),
mirroring its control flow: IOCTL code switch, zero-length input check,
input-buffer retrieval, header-size check, handler-properties lookup,
privilege check, conditional output-buffer retrieval with minimum-reply-size
check, async marking, handler invocation, Done. -/
def ebpf_driver_io_device_control
    (ioControlCode inputBufferLength _outputBufferLength : Nat)
    (env : DispatchEnv) : DispatchOutcome :=
  if ioControlCode = IOCTL_EBPF_CTL_METHOD_BUFFERED then
    if inputBufferLength = 0 then
      dispatchDone NtStatus.invalidParameter false false false false
    else if ¬ NT_SUCCESS env.retrieveInputStatus then
      dispatchDone env.retrieveInputStatus false false false false
    else if env.inputBufferNull then
      dispatchDone NtStatus.invalidParameter false false false false
    else if env.actualInputLength < sizeof_ebpf_operation_header then
      dispatchDone NtStatus.invalidParameter false false false false
    else if env.getPropsStatus ≠ NtStatus.success then
      dispatchDone env.getPropsStatus false false false false
    else if env.props.privileged ∧ ¬ env.callerPrivileged then
      dispatchDone NtStatus.accessDenied false false false false
    else if 0 < env.props.minimum_reply_size then
      if ¬ NT_SUCCESS env.retrieveOutputStatus then
        dispatchDone env.retrieveOutputStatus false false false true
      else if env.outputBufferNull then
        dispatchDone NtStatus.invalidParameter false false false true
      else if env.actualOutputLength < env.props.minimum_reply_size then
        dispatchDone NtStatus.bufferTooSmall false false false true
      else
        dispatchInvoke env true
    else
      dispatchInvoke env false
  else
    dispatchDone NtStatus.invalidDeviceRequest false false false false

/-- Observable effects of _ebpf_driver_io_device_control_complete
(ebpf_drv.c lines 352-361). -/
structure CompleteCallbackOutcome where
  unmarkedCancelable : Bool
  completions : Nat
  dereferenced : Bool
deriving DecidableEq, Repr

/-- Embedding of _ebpf_driver_io_device_control_complete: on the deferred
completion path the driver unmarks cancelability, completes the request
exactly once with the translated handler result, and releases the request
reference acquired at dispatch. -/
def ebpf_driver_io_device_control_complete : CompleteCallbackOutcome :=
  { unmarkedCancelable := true, completions := 1, dereferenced := true }

/-!  Privileged security descriptor (ebpf_drv.c lines 25-30, 44, 63-76,
78-188, 370-393). -/

/-- A security identifier: the numeric value of the 6-byte identifier
authority together with the list of subauthorities. -/
structure Sid where
  identifierAuthority : Nat
  subAuthorities : List Nat
deriving DecidableEq, Repr

/-- An access-allowed ACE: an access mask granted to a SID. -/
structure AccessAllowedAce where
  accessMask : Nat
  sid : Sid
deriving DecidableEq, Repr

/-- A security descriptor reduced to its DACL, the only part the driver
builds and the access check consults. -/
structure SecurityDescriptor where
  dacl : List AccessAllowedAce
deriving DecidableEq, Repr

/-- The subauthorities hard-coded in
_ebpf_driver_build_privileged_security_descriptor (line 86). -/
def sid_subauthorities : List Nat :=
  [3453964624, 2861012444, 1105579853, 3193141192, 1897355174]

/-- The identifier-authority bytes {0x00,0x00,0x00,0x00,0x00,0x50} of line
87, read as the big-endian 6-byte value they denote: 0x50 = 80. -/
def service_authority : Nat := 0x50

/-- The SID the driver constructs for the service via RtlInitializeSid and
the RtlSubAuthoritySid loop (lines 100-108): identifier authority 80 with
the five hard-coded subauthorities. -/
def constructed_service_sid : Sid :=
  { identifierAuthority := service_authority,
    subAuthorities := sid_subauthorities }

/-- The service SID named by the device SDDL string
EBPF_EXECUTION_CONTEXT_DEVICE_SDDL (lines 25-30):
S-1-5-80-3453964624-2861012444-1105579853-3193141192-1897355174, i.e.
identifier authority 5 with subauthorities 80 followed by the five values. -/
def ebpfsvc_sddl_sid : Sid :=
  { identifierAuthority := 5, subAuthorities := 80 :: sid_subauthorities }

/-- The built-in administrators group SID (the BA token of the SDDL string):
S-1-5-32-544. -/
def administrators_sid : Sid :=
  { identifierAuthority := 5, subAuthorities := [32, 544] }

/-- The local-system SID (the SY token of the SDDL string): S-1-5-18. -/
def local_system_sid : Sid :=
  { identifierAuthority := 5, subAuthorities := [18] }

/-- Driver-global state relevant to the privileged check: the global
ebpf_execution_context_privileged_security_descriptor pointer (line 44), the
unloading flag, and a count of frees of the descriptor allocation. -/
structure DriverState where
  privilegedSecurityDescriptor : Option SecurityDescriptor
  unloadingFlag : Bool
  descriptorFrees : Nat
deriving DecidableEq, Repr

/-- Driver state at entry: no descriptor built, not unloading. -/
def initialDriverState : DriverState :=
  { privilegedSecurityDescriptor := none, unloadingFlag := false,
    descriptorFrees := 0 }

/-- Embedding of _ebpf_driver_build_privileged_security_descriptor
(lines 78-188).  The three ebpf_allocate_with_tag calls (SID, DACL,
self-relative descriptor) may fail and are passed in as flags; the Rtl*
calls, which operate on well-formed inputs of fixed sizes, succeed (their
bodies are external to the repository).  On success the global descriptor
is set to a descriptor whose DACL holds the single ACE added by
RtlAddAccessAllowedAce (line 133): GENERIC_ALL granted to the constructed
service SID.  On failure the state is unchanged and
STATUS_INSUFFICIENT_RESOURCES is returned. -/
def ebpf_driver_build_privileged_security_descriptor
    (sidAllocOk daclAllocOk sdAllocOk : Bool) (s : DriverState) :
    NtStatus × DriverState :=
  if ¬ sidAllocOk then (NtStatus.insufficientResources, s)
  else if ¬ daclAllocOk then (NtStatus.insufficientResources, s)
  else if ¬ sdAllocOk then (NtStatus.insufficientResources, s)
  else
    (NtStatus.success,
      { s with
        privilegedSecurityDescriptor :=
          some { dacl := [{ accessMask := GENERIC_ALL,
                            sid := constructed_service_sid }] } })

/-- Embedding of _ebpf_driver_unload (lines 63-76): sets the unloading flag
and, if the privileged security descriptor exists, frees it and nulls the
global pointer. -/
def ebpf_driver_unload (s : DriverState) : DriverState :=
  let s := { s with unloadingFlag := true }
  match s.privilegedSecurityDescriptor with
  | some _ =>
      { s with privilegedSecurityDescriptor := none,
               descriptorFrees := s.descriptorFrees + 1 }
  | none => s

/-- Outcome of the opaque SeAccessCheck call made by
_ebpf_driver_is_caller_privileged: its boolean result, its returned status,
and the granted access mask.  The check itself is an external collaborator
(its semantics live in the kernel, not in this repository). -/
structure SeAccessCheckOutcome where
  result : Bool
  status : NtStatus
  grantedAccess : Nat
deriving DecidableEq, Repr

/-- Embedding of _ebpf_driver_is_caller_privileged (lines 370-393): returns
true exactly when SeAccessCheck, consulted with the privileged security
descriptor and desired access GENERIC_ALL, returns TRUE with a successful
status and a granted-access mask equal to GENERIC_ALL. -/
def ebpf_driver_is_caller_privileged (check : SeAccessCheckOutcome) : Bool :=
  check.result && NT_SUCCESS check.status &&
    (check.grantedAccess == GENERIC_ALL)

/-- The allow-list the spec attributes to the privileged descriptor:
kernel/system, administrators, and the named service principal. -/
def spec_claimed_allow_list : List Sid :=
  [local_system_sid, administrators_sid, ebpfsvc_sddl_sid]

/-!  Completion-versus-cancellation race for an async command.

The driver-side completion paths are embedded above
(`ebpf_driver_io_device_control_complete` and `dispatchDone`); the terminal
transition that arbitrates between the cancellation path
(_ebpf_driver_io_device_control_cancel forwarding to
ebpf_core_cancel_protocol_handler) and the handler path lives in ebpf_core,
which is not under src.  It is modelled from the spec below. -/

/-- Which of the two racing paths performed the user-visible completion. -/
inductive CompletionSource
  | handlerPath
  | cancelPath
deriving DecidableEq, Repr

/-- State of one PendingCommand: the single-assignment completion slot and
the number of user-visible completions performed so far. -/
structure CommandState where
  completedBy : Option CompletionSource
  completionCount : Nat
deriving DecidableEq, Repr

/-- A PendingCommand before any terminal transition. -/
def initialCommandState : CommandState :=
  { completedBy := none, completionCount := 0 }

/-- Modelled from the spec: the terminal transition of ebpf_core for an
async command (ebpf_core_cancel_protocol_handler and the handler completion
path are not under src).  Completion is a single-assignment event guarded by
the terminal-state transition: whichever path arrives first fills the slot
and performs the user-visible completion; an arrival at an already completed
command is a no-op. -/
def tryComplete (s : CommandState) (src : CompletionSource) : CommandState :=
  match s.completedBy with
  | some _ => s
  | none =>
      { completedBy := some src, completionCount := s.completionCount + 1 }

/-- Run a sequence of terminal-transition attempts against a command. -/
def runCompletions (s : CommandState) (l : List CompletionSource) :
    CommandState :=
  l.foldl tryComplete s

/-!  Filter-context lifetime (netebpfext/net_ebpf_ext.h lines 127-196).  -/

/-- Observable state of one net_ebpf_extension_wfp_filter_context_t together
with the effects of its finalization: the interlocked reference count (a
signed long in the source), membership in the filter cleanup list, which of
its allocations have been freed, whether the provider rundown reference was
released, and how many times the context allocation itself was freed. -/
structure FilterContextState where
  referenceCount : Int
  inCleanupList : Bool
  filterIdsFreed : Bool
  clientContextsFreed : Bool
  contextFreed : Bool
  rundownReleased : Bool
  freeCount : Nat
deriving DecidableEq, Repr

/-- A live filter context holding `n` references, present on the cleanup
list when `inList` holds, with nothing freed yet. -/
def mkFilterContextState (n : Int) (inList : Bool) : FilterContextState :=
  { referenceCount := n, inCleanupList := inList, filterIdsFreed := false,
    clientContextsFreed := false, contextFreed := false,
    rundownReleased := false, freeCount := 0 }

/-- Embedding of the CLEAN_UP_FILTER_CONTEXT macro (net_ebpf_ext.h lines
167-182): remove the context from the cleanup list, free the filter_ids
array, free the client_contexts array, close the WFP engine handle, then
free the context allocation itself. -/
def clean_up_filter_context (s : FilterContextState) : FilterContextState :=
  { s with inCleanupList := false, filterIdsFreed := true,
           clientContextsFreed := true, contextFreed := true,
           freeCount := s.freeCount + 1 }

/-- Embedding of the DEREFERENCE_FILTER_CONTEXT macro (net_ebpf_ext.h lines
189-196): InterlockedDecrement of the reference count; when the decremented
value is zero, release the provider rundown reference and then run
CLEAN_UP_FILTER_CONTEXT. -/
def dereference_filter_context (s : FilterContextState) :
    FilterContextState :=
  let rc := s.referenceCount - 1
  if rc = 0 then
    clean_up_filter_context
      { s with referenceCount := rc, rundownReleased := true }
  else
    { s with referenceCount := rc }

/-- The two independent release signals of a filter context: a client-side
release of a reference (detach or request completion), or the resolution of
one outstanding WFP filter-rule deletion. -/
inductive ReleaseSignal
  | clientRelease
  | ruleResolved
deriving DecidableEq, Repr

/-- Modelled from the spec: each outstanding WFP filter deletion holds one
reference on its filter context, released by the WFP deletion callback
(net_ebpf_ext_filter_change_notify is only declared under src), and each
client-side owner likewise holds one reference; both releases funnel into
DEREFERENCE_FILTER_CONTEXT, whose embedding from the source is applied
here. -/
def applyReleaseSignal (s : FilterContextState) (_e : ReleaseSignal) :
    FilterContextState :=
  dereference_filter_context s

/-- Deliver a sequence of release signals to a filter context. -/
def runReleaseSignals (s : FilterContextState) (l : List ReleaseSignal) :
    FilterContextState :=
  l.foldl applyReleaseSignal s

/-!  Step-level traces of filter-context finalization, for the ordering of
removal from the cleanup list against the frees (net_ebpf_ext.h lines
167-196). -/

/-- The primitive steps performed by the finalization macros, in source
order. -/
inductive FinalizeStep
  | removeFromCleanupList
  | freeFilterIds
  | freeClientContexts
  | closeWfpEngine
  | freeContext
  | leaveProviderRundown
deriving DecidableEq, Repr

/-- The step sequence of CLEAN_UP_FILTER_CONTEXT (lines 167-182): first
net_ebpf_ext_remove_filter_context_from_cleanup_list, then the conditional
frees of filter_ids and client_contexts and the conditional engine close,
then ExFreePool of the context itself. -/
def clean_up_filter_context_steps
    (hasFilterIds hasClientContexts hasEngine : Bool) : List FinalizeStep :=
  FinalizeStep.removeFromCleanupList ::
    ((if hasFilterIds then [FinalizeStep.freeFilterIds] else []) ++
     (if hasClientContexts then [FinalizeStep.freeClientContexts] else []) ++
     (if hasEngine then [FinalizeStep.closeWfpEngine] else []) ++
     [FinalizeStep.freeContext])

/-- The step sequence of DEREFERENCE_FILTER_CONTEXT (lines 189-196) on a
context whose reference count is `rc` before the decrement: nothing when the
decremented count is nonzero, otherwise the provider rundown release
followed by the CLEAN_UP_FILTER_CONTEXT steps. -/
def dereference_filter_context_steps
    (rc : Int) (hasFilterIds hasClientContexts hasEngine : Bool) :
    List FinalizeStep :=
  if rc - 1 = 0 then
    FinalizeStep.leaveProviderRundown ::
      clean_up_filter_context_steps hasFilterIds hasClientContexts hasEngine
  else
    []

/-- Reachability-relevant state while finalization steps execute. -/
structure FinalizeState where
  inCleanupList : Bool
  filterIdsFreed : Bool
  clientContextsFreed : Bool
  contextFreed : Bool
deriving DecidableEq, Repr

/-- A context that may sit on the cleanup list, with nothing freed yet. -/
def initFinalizeState (b : Bool) : FinalizeState :=
  { inCleanupList := b, filterIdsFreed := false,
    clientContextsFreed := false, contextFreed := false }

/-- Apply one finalization step. -/
def applyFinalizeStep (s : FinalizeState) (step : FinalizeStep) :
    FinalizeState :=
  match step with
  | FinalizeStep.removeFromCleanupList => { s with inCleanupList := false }
  | FinalizeStep.freeFilterIds => { s with filterIdsFreed := true }
  | FinalizeStep.freeClientContexts => { s with clientContextsFreed := true }
  | FinalizeStep.closeWfpEngine => s
  | FinalizeStep.freeContext => { s with contextFreed := true }
  | FinalizeStep.leaveProviderRundown => s

/-- Run a list of finalization steps. -/
def runFinalizeSteps (s : FinalizeState) (l : List FinalizeStep) :
    FinalizeState :=
  l.foldl applyFinalizeStep s

/-- Any free observed: one of the three allocations of the context has been
returned to the pool. -/
def FinalizeState.anyFreed (s : FinalizeState) : Bool :=
  s.filterIdsFreed || s.clientContextsFreed || s.contextFreed

/-!  Client attachment to a filter context (net_ebpf_ext.h lines 29-38 and
394-406). -/

/-- ebpf_result_t values used by the attachment path. -/
inductive EbpfResult
  | success
  | noMemory
deriving DecidableEq, Repr

/-- NET_EBPF_EXT_MAX_CLIENTS_PER_HOOK_MULTI_ATTACH (net_ebpf_ext.h line
37). -/
def NET_EBPF_EXT_MAX_CLIENTS_PER_HOOK_MULTI_ATTACH : Nat := 16

/-- NET_EBPF_EXT_MAX_CLIENTS_PER_HOOK_SINGLE_ATTACH (net_ebpf_ext.h line
38). -/
def NET_EBPF_EXT_MAX_CLIENTS_PER_HOOK_SINGLE_ATTACH : Nat := 1

/-- The client-tracking fields of a filter context: the fixed capacity
client_context_count_max chosen at construction and the current
client_context_count. -/
structure ClientArrayState where
  client_context_count_max : Nat
  client_context_count : Nat
deriving DecidableEq, Repr

/-- Modelled from the spec: net_ebpf_ext_add_client_context (declared at
net_ebpf_ext.h lines 394-406 with its implementation outside src) adds the
hook client to the filter context client array under the context lock,
returning EBPF_SUCCESS, and returns EBPF_NO_MEMORY, leaving the count
unchanged, when the array — fixed-capacity at construction — is already
full. -/
def net_ebpf_ext_add_client_context (s : ClientArrayState) :
    EbpfResult × ClientArrayState :=
  if s.client_context_count < s.client_context_count_max then
    (EbpfResult.success,
      { s with client_context_count := s.client_context_count + 1 })
  else
    (EbpfResult.noMemory, s)

/-- A freshly created filter context with capacity `n` and no clients. -/
def mkClientArrayState (n : Nat) : ClientArrayState :=
  { client_context_count_max := n, client_context_count := 0 }

/-- The state after `k` consecutive attach calls starting from `s`
(discarding each returned result). -/
def attachIter (s : ClientArrayState) : Nat → ClientArrayState
  | 0 => s
  | Nat.succ k => (net_ebpf_ext_add_client_context (attachIter s k)).2

/-!  Cleanup coordinator (net_ebpf_ext.h lines 147-158 and 424-430). -/

/-- The filter-context half of net_ebpf_extension_wfp_cleanup_state_t:
the lock-protected filter cleanup list (contexts identified by numeric ids),
the signal_empty_filter_list flag, and the number of times the
wfp_filter_cleanup_event was signaled. -/
structure WfpCleanupState where
  filterCleanupList : List Nat
  signalEmptyFilterList : Bool
  eventSignalCount : Nat
deriving DecidableEq, Repr

/-- Modelled from the spec:
net_ebpf_ext_remove_filter_context_from_cleanup_list (declared at
net_ebpf_ext.h lines 424-430 with its implementation outside src) — under
the cleanup-state lock, remove the filter context from the filter cleanup
list; if the list is then empty and the signal-empty flag is armed, signal
the drain-completion event.  The lock serializes concurrent unregisters, so
a set of concurrent calls is modelled as the sequential application of its
members in some order. -/
def net_ebpf_ext_remove_filter_context_from_cleanup_list
    (s : WfpCleanupState) (filterContext : Nat) : WfpCleanupState :=
  let l := s.filterCleanupList.erase filterContext
  if l.isEmpty && s.signalEmptyFilterList then
    { s with filterCleanupList := l,
             eventSignalCount := s.eventSignalCount + 1 }
  else
    { s with filterCleanupList := l }

/-- Apply a sequence of unregister calls to the cleanup state. -/
def runUnregisters (s : WfpCleanupState) (order : List Nat) :
    WfpCleanupState :=
  order.foldl net_ebpf_ext_remove_filter_context_from_cleanup_list s

/-- A cleanup state tracking the contexts `l` with the signal-empty flag
armed (as during drain) and no signal fired yet. -/
def mkCleanupState (l : List Nat) : WfpCleanupState :=
  { filterCleanupList := l, signalEmptyFilterList := true,
    eventSignalCount := 0 }

/-- Modelled from the spec: the contract of ebpf_core_invoke_protocol_handler
(declared outside src) when called with a non-null async completion context —
it returns EBPF_PENDING or an error, never plain success; the dispatcher
itself asserts the translated status is not STATUS_SUCCESS on that path
(ebpf_drv.c line 534). -/
def asyncInvokeContract (s : NtStatus) : Prop :=
  s = NtStatus.pending ∨ NT_SUCCESS s = false

/-- A concrete interleaving of release signals used as the C2 witness: a
rule resolution arriving between two client releases. -/
def c2SignalList : List ReleaseSignal :=
  [ReleaseSignal.clientRelease, ReleaseSignal.ruleResolved,
   ReleaseSignal.clientRelease]

/-- The dispatcher outcome of a rejected command: no handler invocation, no
output retrieval, no request reference, and exactly one completion with the
rejection status. -/
def rejectedOutcome (status : NtStatus) (outputRetrieved : Bool) :
    DispatchOutcome :=
  { status := status, handlerInvoked := false,
    outputRetrieved := outputRetrieved, refAcquired := false,
    markedCancelable := false, unmarkedCancelable := false,
    dereferenced := false, completions := 1 }

/-- A concrete environment for an async command whose handler invocation
fails synchronously. -/
def asyncFailEnv : DispatchEnv :=
  { retrieveInputStatus := NtStatus.success, inputBufferNull := false,
    actualInputLength := 16, getPropsStatus := NtStatus.success,
    props := { minimum_request_size := 16, minimum_reply_size := 0,
               async := true, privileged := false },
    callerPrivileged := false,
    retrieveOutputStatus := NtStatus.success, outputBufferNull := false,
    actualOutputLength := 0,
    invokeStatus := NtStatus.invalidParameter }

/-- C4: a privileged command from an unprivileged caller is rejected with
STATUS_ACCESS_DENIED before the handler or the output buffer is touched:
the whole observable outcome is the single completion with AccessDenied. -/
theorem privileged_denied_handler_not_invoked
    (inLen outLen : Nat) (env : DispatchEnv)
    (hlen : inLen ≠ 0)
    (hret : NT_SUCCESS env.retrieveInputStatus = true)
    (hnull : env.inputBufferNull = false)
    (hhdr : sizeof_ebpf_operation_header ≤ env.actualInputLength)
    (hprops : env.getPropsStatus = NtStatus.success)
    (hpriv : env.props.privileged = true)
    (hcaller : env.callerPrivileged = false) :
    ebpf_driver_io_device_control IOCTL_EBPF_CTL_METHOD_BUFFERED inLen outLen
      env = rejectedOutcome NtStatus.accessDenied false := by
  simp [ebpf_driver_io_device_control, dispatchDone, rejectedOutcome, hlen,
    hret, hnull, hprops, hpriv, hcaller, Nat.not_lt.mpr hhdr]

/-- Witness for C4 at a concrete environment. -/
theorem privileged_denied_handler_not_invoked_witness :
    ebpf_driver_io_device_control IOCTL_EBPF_CTL_METHOD_BUFFERED 16 0
      { retrieveInputStatus := NtStatus.success, inputBufferNull := false,
        actualInputLength := 16, getPropsStatus := NtStatus.success,
        props := { minimum_request_size := 16, minimum_reply_size := 0,
                   async := false, privileged := true },
        callerPrivileged := false,
        retrieveOutputStatus := NtStatus.success, outputBufferNull := false,
        actualOutputLength := 0, invokeStatus := NtStatus.success } =
    rejectedOutcome NtStatus.accessDenied false :=
  privileged_denied_handler_not_invoked 16 0 _ (by decide) (by decide)
    (by decide) (by decide) (by decide) (by decide) (by decide)

/-- C5: a command whose input is of length zero, or shorter than the
operation header, is rejected with STATUS_INVALID_PARAMETER and the handler
is never invoked.  In METHOD_BUFFERED transfer the retrieved buffer length
equals the request input length, recorded by the first hypothesis. -/
theorem short_input_invalid_parameter
    (inLen outLen : Nat) (env : DispatchEnv)
    (hactual : env.actualInputLength = inLen)
    (hshort : inLen < sizeof_ebpf_operation_header)
    (hret : NT_SUCCESS env.retrieveInputStatus = true)
    (hnull : env.inputBufferNull = false) :
    ebpf_driver_io_device_control IOCTL_EBPF_CTL_METHOD_BUFFERED inLen outLen
      env = rejectedOutcome NtStatus.invalidParameter false := by
  by_cases hzero : inLen = 0
  · simp [ebpf_driver_io_device_control, dispatchDone, rejectedOutcome,
      hzero]
  · simp [ebpf_driver_io_device_control, dispatchDone, rejectedOutcome,
      hzero, hret, hnull, hactual, hshort]

/-- Witness for C5: both the zero-length case and the short-header case. -/
theorem short_input_invalid_parameter_witness :
    (ebpf_driver_io_device_control IOCTL_EBPF_CTL_METHOD_BUFFERED 0 0
      { retrieveInputStatus := NtStatus.success, inputBufferNull := false,
        actualInputLength := 0, getPropsStatus := NtStatus.success,
        props := { minimum_request_size := 0, minimum_reply_size := 0,
                   async := false, privileged := false },
        callerPrivileged := true,
        retrieveOutputStatus := NtStatus.success, outputBufferNull := false,
        actualOutputLength := 0, invokeStatus := NtStatus.success } =
      rejectedOutcome NtStatus.invalidParameter false) ∧
    (ebpf_driver_io_device_control IOCTL_EBPF_CTL_METHOD_BUFFERED 2 0
      { retrieveInputStatus := NtStatus.success, inputBufferNull := false,
        actualInputLength := 2, getPropsStatus := NtStatus.success,
        props := { minimum_request_size := 0, minimum_reply_size := 0,
                   async := false, privileged := false },
        callerPrivileged := true,
        retrieveOutputStatus := NtStatus.success, outputBufferNull := false,
        actualOutputLength := 0, invokeStatus := NtStatus.success } =
      rejectedOutcome NtStatus.invalidParameter false) :=
  ⟨short_input_invalid_parameter 0 0 _ (by decide) (by decide) (by decide)
      (by decide),
   short_input_invalid_parameter 2 0 _ (by decide) (by decide) (by decide)
      (by decide)⟩

/-- C6: when the command descriptor declares a nonzero minimum reply size
and the supplied output capacity is below it, dispatch rejects with
STATUS_BUFFER_TOO_SMALL and never invokes the handler; when the minimum
reply size is zero the output buffer is never retrieved and the outcome does
not depend on any output-buffer parameter. -/
theorem small_output_buffer_too_small
    (inLen outLen : Nat) (env : DispatchEnv)
    (hlen : inLen ≠ 0)
    (hret : NT_SUCCESS env.retrieveInputStatus = true)
    (hnull : env.inputBufferNull = false)
    (hhdr : sizeof_ebpf_operation_header ≤ env.actualInputLength)
    (hprops : env.getPropsStatus = NtStatus.success)
    (hallow : env.props.privileged = false ∨ env.callerPrivileged = true) :
    (0 < env.props.minimum_reply_size →
      NT_SUCCESS env.retrieveOutputStatus = true →
      env.outputBufferNull = false →
      env.actualOutputLength < env.props.minimum_reply_size →
      ebpf_driver_io_device_control IOCTL_EBPF_CTL_METHOD_BUFFERED inLen
        outLen env = rejectedOutcome NtStatus.bufferTooSmall true) ∧
    (env.props.minimum_reply_size = 0 →
      (ebpf_driver_io_device_control IOCTL_EBPF_CTL_METHOD_BUFFERED inLen
        outLen env).outputRetrieved = false ∧
      ∀ (ros : NtStatus) (obn : Bool) (aol outLen2 : Nat),
        ebpf_driver_io_device_control IOCTL_EBPF_CTL_METHOD_BUFFERED inLen
          outLen2
          { env with retrieveOutputStatus := ros, outputBufferNull := obn,
                     actualOutputLength := aol } =
        ebpf_driver_io_device_control IOCTL_EBPF_CTL_METHOD_BUFFERED inLen
          outLen env) := by
  constructor
  · intro hmin hros hobn haol
    rcases hallow with h | h <;>
      simp [ebpf_driver_io_device_control, dispatchDone, rejectedOutcome,
        hlen, hret, hnull, hprops, h, Nat.not_lt.mpr hhdr, hmin, hros, hobn,
        haol]
  · intro hmin
    constructor
    · rcases hallow with h | h <;>
        simp [ebpf_driver_io_device_control, dispatchDone, dispatchInvoke,
          hlen, hret, hnull, hprops, h, Nat.not_lt.mpr hhdr, hmin] <;>
        split <;> rfl
    · intro ros obn aol outLen2
      rcases hallow with h | h <;>
        simp [ebpf_driver_io_device_control, dispatchDone, dispatchInvoke,
          hlen, hret, hnull, hprops, h, Nat.not_lt.mpr hhdr, hmin]

/-- Witness for C6: a concrete undersized reply buffer is rejected, and a
concrete no-reply command never retrieves the output buffer. -/
theorem small_output_buffer_too_small_witness :
    (ebpf_driver_io_device_control IOCTL_EBPF_CTL_METHOD_BUFFERED 16 1
      { retrieveInputStatus := NtStatus.success, inputBufferNull := false,
        actualInputLength := 16, getPropsStatus := NtStatus.success,
        props := { minimum_request_size := 16, minimum_reply_size := 8,
                   async := false, privileged := false },
        callerPrivileged := false,
        retrieveOutputStatus := NtStatus.success, outputBufferNull := false,
        actualOutputLength := 1, invokeStatus := NtStatus.success } =
      rejectedOutcome NtStatus.bufferTooSmall true) ∧
    (ebpf_driver_io_device_control IOCTL_EBPF_CTL_METHOD_BUFFERED 16 0
      { retrieveInputStatus := NtStatus.success, inputBufferNull := false,
        actualInputLength := 16, getPropsStatus := NtStatus.success,
        props := { minimum_request_size := 16, minimum_reply_size := 0,
                   async := false, privileged := false },
        callerPrivileged := false,
        retrieveOutputStatus := NtStatus.success, outputBufferNull := false,
        actualOutputLength := 0,
        invokeStatus := NtStatus.success }).outputRetrieved = false :=
  ⟨(small_output_buffer_too_small 16 1 _ (by decide) (by decide) (by decide)
      (by decide) (by decide) (Or.inl (by decide))).1 (by decide) (by decide)
      (by decide) (by decide),
   ((small_output_buffer_too_small 16 0 _ (by decide) (by decide) (by decide)
      (by decide) (by decide) (Or.inl (by decide))).2 (by decide)).1⟩

/-- C9: on the async dispatch path (reference acquired, request marked
cancelable) a handler invocation that does not return pending makes the
dispatcher itself unmark cancelability, release the acquired reference and
perform the single completion with the handler status, and that status is
never plain success. -/
theorem async_non_pending_dispatcher_completes
    (inLen outLen : Nat) (env : DispatchEnv)
    (hlen : inLen ≠ 0)
    (hret : NT_SUCCESS env.retrieveInputStatus = true)
    (hnull : env.inputBufferNull = false)
    (hhdr : sizeof_ebpf_operation_header ≤ env.actualInputLength)
    (hprops : env.getPropsStatus = NtStatus.success)
    (hallow : env.props.privileged = false ∨ env.callerPrivileged = true)
    (hout : env.props.minimum_reply_size = 0 ∨
      (NT_SUCCESS env.retrieveOutputStatus = true ∧
       env.outputBufferNull = false ∧
       env.props.minimum_reply_size ≤ env.actualOutputLength))
    (hasync : env.props.async = true)
    (hcontract : asyncInvokeContract env.invokeStatus)
    (hnp : env.invokeStatus ≠ NtStatus.pending) :
    (ebpf_driver_io_device_control IOCTL_EBPF_CTL_METHOD_BUFFERED inLen
        outLen env).refAcquired = true ∧
    (ebpf_driver_io_device_control IOCTL_EBPF_CTL_METHOD_BUFFERED inLen
        outLen env).markedCancelable = true ∧
    (ebpf_driver_io_device_control IOCTL_EBPF_CTL_METHOD_BUFFERED inLen
        outLen env).unmarkedCancelable = true ∧
    (ebpf_driver_io_device_control IOCTL_EBPF_CTL_METHOD_BUFFERED inLen
        outLen env).dereferenced = true ∧
    (ebpf_driver_io_device_control IOCTL_EBPF_CTL_METHOD_BUFFERED inLen
        outLen env).completions = 1 ∧
    (ebpf_driver_io_device_control IOCTL_EBPF_CTL_METHOD_BUFFERED inLen
        outLen env).status = env.invokeStatus ∧
    env.invokeStatus ≠ NtStatus.success := by
  have hns : env.invokeStatus ≠ NtStatus.success := by
    rcases hcontract with h | h
    · intro hc; rw [hc] at h; exact NtStatus.noConfusion h
    · intro hc; rw [hc] at h; exact Bool.noConfusion h
  have hgoal :
      ebpf_driver_io_device_control IOCTL_EBPF_CTL_METHOD_BUFFERED inLen
        outLen env =
      dispatchDone env.invokeStatus true true true
        (decide (0 < env.props.minimum_reply_size)) := by
    rcases hout with hmin | ⟨hros, hobn, haol⟩
    · rcases hallow with h | h <;>
        simp [ebpf_driver_io_device_control, dispatchInvoke, hlen, hret,
          hnull, hprops, h, Nat.not_lt.mpr hhdr, hmin, hasync]
    · by_cases hmin : 0 < env.props.minimum_reply_size
      · rcases hallow with h | h <;>
          simp [ebpf_driver_io_device_control, dispatchInvoke, hlen, hret,
            hnull, hprops, h, Nat.not_lt.mpr hhdr, hmin, hros, hobn,
            Nat.not_lt.mpr haol, hasync]
      · rcases hallow with h | h <;>
          simp [ebpf_driver_io_device_control, dispatchInvoke, hlen, hret,
            hnull, hprops, h, Nat.not_lt.mpr hhdr, hmin, hasync]
  rw [hgoal]
  simp [dispatchDone, hnp, hns]

/-- Witness for C9 at a concrete async command whose handler returns an
error synchronously. -/
theorem async_non_pending_dispatcher_completes_witness :
    (ebpf_driver_io_device_control IOCTL_EBPF_CTL_METHOD_BUFFERED 16 0
      asyncFailEnv).refAcquired = true ∧
    (ebpf_driver_io_device_control IOCTL_EBPF_CTL_METHOD_BUFFERED 16 0
      asyncFailEnv).markedCancelable = true ∧
    (ebpf_driver_io_device_control IOCTL_EBPF_CTL_METHOD_BUFFERED 16 0
      asyncFailEnv).unmarkedCancelable = true ∧
    (ebpf_driver_io_device_control IOCTL_EBPF_CTL_METHOD_BUFFERED 16 0
      asyncFailEnv).dereferenced = true ∧
    (ebpf_driver_io_device_control IOCTL_EBPF_CTL_METHOD_BUFFERED 16 0
      asyncFailEnv).completions = 1 ∧
    (ebpf_driver_io_device_control IOCTL_EBPF_CTL_METHOD_BUFFERED 16 0
      asyncFailEnv).status = asyncFailEnv.invokeStatus ∧
    asyncFailEnv.invokeStatus ≠ NtStatus.success :=
  async_non_pending_dispatcher_completes 16 0 asyncFailEnv (by decide)
    (by decide) (by decide) (by decide) (by decide) (Or.inl (by decide))
    (Or.inl (by decide)) (by decide) (Or.inr (by decide)) (by decide)

/-- C3 counterexample: the descriptor actually built by
_ebpf_driver_build_privileged_security_descriptor (with every allocation
succeeding, starting from the initial driver state) carries a DACL whose
single ACE names only the SID constructed at lines 86-108 — not the
kernel/system SID, not the administrators SID, and not even the
S-1-5-80-... service SID spelled out in the device SDDL string, since the
construction places 80 in the identifier authority instead of authority 5
with leading subauthority 80.  So the descriptor is not built from the
allow-list of kernel/system, administrators and the named service principal
that the claim states. -/
theorem privileged_descriptor_allow_list_counterexample :
    (Option.map (fun sd => sd.dacl.map AccessAllowedAce.sid)
      (ebpf_driver_build_privileged_security_descriptor true true true
        initialDriverState).2.privilegedSecurityDescriptor) =
      some [constructed_service_sid] ∧
    constructed_service_sid ≠ local_system_sid ∧
    constructed_service_sid ≠ administrators_sid ∧
    constructed_service_sid ≠ ebpfsvc_sddl_sid ∧
    spec_claimed_allow_list =
      [local_system_sid, administrators_sid, ebpfsvc_sddl_sid] := by
  decide

/-- C3 amended: _ebpf_driver_is_caller_privileged returns true exactly when
the SeAccessCheck consultation of the startup-built descriptor reports
success with granted access equal to GENERIC_ALL; the descriptor built at
startup carries a single ACE granting GENERIC_ALL to the service SID the
driver constructs (identifier authority 80, subauthorities
3453964624, 2861012444, 1105579853, 3193141192, 1897355174); and driver
unload frees the descriptor and clears the global pointer. -/
theorem privileged_check_descriptor_amended
    (sidOk daclOk sdOk : Bool) (s : DriverState)
    (check : SeAccessCheckOutcome)
    (hsid : sidOk = true) (hdacl : daclOk = true) (hsd : sdOk = true) :
    (ebpf_driver_build_privileged_security_descriptor sidOk daclOk sdOk
        s).1 = NtStatus.success ∧
    (ebpf_driver_build_privileged_security_descriptor sidOk daclOk sdOk
        s).2.privilegedSecurityDescriptor =
      some { dacl := [{ accessMask := GENERIC_ALL,
                        sid := constructed_service_sid }] } ∧
    (ebpf_driver_is_caller_privileged check = true ↔
      (check.result = true ∧ NT_SUCCESS check.status = true ∧
        check.grantedAccess = GENERIC_ALL)) ∧
    (ebpf_driver_unload
        (ebpf_driver_build_privileged_security_descriptor sidOk daclOk sdOk
          s).2).privilegedSecurityDescriptor = none ∧
    (ebpf_driver_unload
        (ebpf_driver_build_privileged_security_descriptor sidOk daclOk sdOk
          s).2).descriptorFrees = s.descriptorFrees + 1 ∧
    (ebpf_driver_unload
        (ebpf_driver_build_privileged_security_descriptor sidOk daclOk sdOk
          s).2).unloadingFlag = true := by
  subst hsid hdacl hsd
  refine ⟨rfl, rfl, ?_, ?_, ?_, ?_⟩
  · simp [ebpf_driver_is_caller_privileged, and_assoc]
  · simp [ebpf_driver_build_privileged_security_descriptor,
      ebpf_driver_unload]
  · simp [ebpf_driver_build_privileged_security_descriptor,
      ebpf_driver_unload]
  · simp [ebpf_driver_build_privileged_security_descriptor,
      ebpf_driver_unload]

/-- Witness for the amended C3 at the initial driver state and a concrete
access-check outcome. -/
theorem privileged_check_descriptor_amended_witness :
    (ebpf_driver_build_privileged_security_descriptor true true true
        initialDriverState).1 = NtStatus.success ∧
    (ebpf_driver_build_privileged_security_descriptor true true true
        initialDriverState).2.privilegedSecurityDescriptor =
      some { dacl := [{ accessMask := GENERIC_ALL,
                        sid := constructed_service_sid }] } ∧
    (ebpf_driver_is_caller_privileged
        { result := true, status := NtStatus.success,
          grantedAccess := GENERIC_ALL } = true ↔
      (true = true ∧ NT_SUCCESS NtStatus.success = true ∧
        GENERIC_ALL = GENERIC_ALL)) ∧
    (ebpf_driver_unload
        (ebpf_driver_build_privileged_security_descriptor true true true
          initialDriverState).2).privilegedSecurityDescriptor = none ∧
    (ebpf_driver_unload
        (ebpf_driver_build_privileged_security_descriptor true true true
          initialDriverState).2).descriptorFrees =
      initialDriverState.descriptorFrees + 1 ∧
    (ebpf_driver_unload
        (ebpf_driver_build_privileged_security_descriptor true true true
          initialDriverState).2).unloadingFlag = true :=
  privileged_check_descriptor_amended true true true initialDriverState
    { result := true, status := NtStatus.success,
      grantedAccess := GENERIC_ALL } rfl rfl rfl

/-- Once the completion slot of a command is filled, any further sequence of
terminal-transition attempts leaves the command unchanged. -/
theorem runCompletions_of_completed (c : CompletionSource) (n : Nat)
    (l : List CompletionSource) :
    runCompletions { completedBy := some c, completionCount := n } l =
      { completedBy := some c, completionCount := n } := by
  induction l with
  | nil => rfl
  | cons x t ih =>
      simpa [runCompletions, tryComplete] using ih

/-- C1: for every command, whatever nonempty sequence of terminal-transition
attempts the cancellation path and the handler path produce, exactly one
user-visible completion is performed; the path arriving first performs it,
every later attempt (in particular a cancel request arriving after
completion) is inert; and the driver completion callback performs one
completion per invocation. -/
theorem completion_single_assignment (a : CompletionSource)
    (t : List CompletionSource) (src : CompletionSource) :
    (runCompletions initialCommandState (a :: t)).completionCount = 1 ∧
    (runCompletions initialCommandState (a :: t)).completedBy = some a ∧
    tryComplete (runCompletions initialCommandState (a :: t)) src =
      runCompletions initialCommandState (a :: t) ∧
    ebpf_driver_io_device_control_complete.completions = 1 := by
  have h : runCompletions initialCommandState (a :: t) =
      { completedBy := some a, completionCount := 1 } := by
    have h1 : tryComplete initialCommandState a =
        { completedBy := some a, completionCount := 1 } := rfl
    calc runCompletions initialCommandState (a :: t)
        = runCompletions (tryComplete initialCommandState a) t := rfl
      _ = { completedBy := some a, completionCount := 1 } := by
          rw [h1]; exact runCompletions_of_completed a 1 t
  rw [h]
  exact ⟨rfl, rfl, rfl, rfl⟩

/-- Delivering to a live filter context exactly as many release signals as
it holds references frees it: the last signal releases the provider rundown
reference and performs the single free, emptying its cleanup-list
membership. -/
theorem runReleaseSignals_full (l : List ReleaseSignal) :
    ∀ s : FilterContextState,
      s.referenceCount = l.length →
      s.contextFreed = false → s.freeCount = 0 →
      s.rundownReleased = false → l ≠ [] →
      (runReleaseSignals s l).contextFreed = true ∧
      (runReleaseSignals s l).freeCount = 1 ∧
      (runReleaseSignals s l).rundownReleased = true ∧
      (runReleaseSignals s l).inCleanupList = false ∧
      (runReleaseSignals s l).referenceCount = 0 := by
  induction l with
  | nil => intro s _ _ _ _ hne; exact absurd rfl hne
  | cons e t ih =>
      intro s hrc hcf hfc hrr _
      have hstep : runReleaseSignals s (e :: t) =
          runReleaseSignals (dereference_filter_context s) t := rfl
      by_cases ht : t = []
      · subst ht
        have hrc1 : s.referenceCount = 1 := by simpa using hrc
        have hd : dereference_filter_context s =
            { referenceCount := 0, inCleanupList := false,
              filterIdsFreed := true, clientContextsFreed := true,
              contextFreed := true, rundownReleased := true,
              freeCount := s.freeCount + 1 } := by
          simp [dereference_filter_context, clean_up_filter_context, hrc1]
        rw [hstep, hd]
        simp [runReleaseSignals, hfc]
      · have hlen : (t.length : Int) ≠ 0 := by
          simpa [List.length_eq_zero] using ht
        have hrc2 : s.referenceCount - 1 = (t.length : Int) := by
          rw [hrc]; push_cast [List.length_cons]; ring
        have hd : dereference_filter_context s =
            { s with referenceCount := (t.length : Int) } := by
          rw [dereference_filter_context, hrc2]
          simp [hlen]
        rw [hstep, hd]
        exact ih _ rfl hcf hfc hrr ht

/-- Delivering fewer release signals than the held reference count leaves
the filter context unfreed, its rundown reference held, and its cleanup-list
membership untouched. -/
theorem runReleaseSignals_partial (p : List ReleaseSignal) :
    ∀ s : FilterContextState,
      (p.length : Int) < s.referenceCount →
      s.contextFreed = false → s.freeCount = 0 →
      s.rundownReleased = false →
      (runReleaseSignals s p).contextFreed = false ∧
      (runReleaseSignals s p).freeCount = 0 ∧
      (runReleaseSignals s p).rundownReleased = false ∧
      (runReleaseSignals s p).inCleanupList = s.inCleanupList ∧
      (runReleaseSignals s p).referenceCount =
        s.referenceCount - p.length := by
  induction p with
  | nil =>
      intro s _ hcf hfc hrr
      exact ⟨hcf, hfc, hrr, rfl, by simp [runReleaseSignals]⟩
  | cons e t ih =>
      intro s hlt hcf hfc hrr
      have hstep : runReleaseSignals s (e :: t) =
          runReleaseSignals (dereference_filter_context s) t := rfl
      have hlen : ((e :: t).length : Int) = (t.length : Int) + 1 := by
        push_cast [List.length_cons]; ring
      have hne : s.referenceCount - 1 ≠ 0 := by
        rw [hlen] at hlt; omega
      have hd : dereference_filter_context s =
          { s with referenceCount := s.referenceCount - 1 } := by
        rw [dereference_filter_context]
        simp [hne]
      rw [hstep, hd]
      have hlt2 : (t.length : Int) < s.referenceCount - 1 := by
        rw [hlen] at hlt; omega
      obtain ⟨h1, h2, h3, h4, h5⟩ :=
        ih { s with referenceCount := s.referenceCount - 1 } hlt2 hcf hfc hrr
      refine ⟨h1, h2, h3, h4, ?_⟩
      rw [h5]
      show s.referenceCount - 1 - (t.length : Int) =
        s.referenceCount - ((e :: t).length : Int)
      rw [hlen]; ring

/-- C2: a filter context holding one reference per pending release signal
(client-side releases and rule-deletion resolutions, in any interleaving) is
freed exactly once, with the provider rundown reference released, by
whichever signal arrives last; after any proper subsequence of the signals
it is still unfreed and its rundown reference still held. -/
theorem filter_context_freed_once_after_both_signals
    (l : List ReleaseSignal) (inList : Bool) (k : Nat) (hne : l ≠ []) :
    (runReleaseSignals (mkFilterContextState l.length inList)
        l).contextFreed = true ∧
    (runReleaseSignals (mkFilterContextState l.length inList)
        l).freeCount = 1 ∧
    (runReleaseSignals (mkFilterContextState l.length inList)
        l).rundownReleased = true ∧
    (runReleaseSignals (mkFilterContextState l.length inList)
        l).inCleanupList = false ∧
    (k < l.length →
      (runReleaseSignals (mkFilterContextState l.length inList)
          (l.take k)).contextFreed = false ∧
      (runReleaseSignals (mkFilterContextState l.length inList)
          (l.take k)).freeCount = 0 ∧
      (runReleaseSignals (mkFilterContextState l.length inList)
          (l.take k)).rundownReleased = false) := by
  obtain ⟨h1, h2, h3, h4, _⟩ :=
    runReleaseSignals_full l (mkFilterContextState l.length inList) rfl rfl
      rfl rfl hne
  refine ⟨h1, h2, h3, h4, ?_⟩
  intro hk
  have hlt : (((l.take k).length : Int) <
      (mkFilterContextState l.length inList).referenceCount) := by
    simp [mkFilterContextState, List.length_take]
    omega
  obtain ⟨g1, g2, g3, _, _⟩ :=
    runReleaseSignals_partial (l.take k)
      (mkFilterContextState l.length inList) hlt rfl rfl rfl
  exact ⟨g1, g2, g3⟩

/-- Witness for C2: three signals (client release, rule resolution, client
release) against a context holding three references; freed exactly once at
the third, unfreed after the first two. -/
theorem filter_context_freed_once_witness :
    (runReleaseSignals
        (mkFilterContextState c2SignalList.length true)
        c2SignalList).contextFreed = true ∧
    (runReleaseSignals
        (mkFilterContextState c2SignalList.length true)
        c2SignalList).freeCount = 1 ∧
    (runReleaseSignals
        (mkFilterContextState c2SignalList.length true)
        c2SignalList).rundownReleased = true ∧
    (runReleaseSignals
        (mkFilterContextState c2SignalList.length true)
        c2SignalList).inCleanupList = false ∧
    (2 < c2SignalList.length →
      (runReleaseSignals (mkFilterContextState c2SignalList.length true)
          (c2SignalList.take 2)).contextFreed = false ∧
      (runReleaseSignals (mkFilterContextState c2SignalList.length true)
          (c2SignalList.take 2)).freeCount = 0 ∧
      (runReleaseSignals (mkFilterContextState c2SignalList.length true)
          (c2SignalList.take 2)).rundownReleased = false) :=
  filter_context_freed_once_after_both_signals c2SignalList true 2
    (by decide)

/-- No finalization step ever puts a context back on the cleanup list: once
off the list, a context stays off for the rest of the trace. -/
theorem inCleanupList_stays_false (l : List FinalizeStep) :
    ∀ s : FinalizeState, s.inCleanupList = false →
      (runFinalizeSteps s l).inCleanupList = false := by
  induction l with
  | nil => intro s hs; exact hs
  | cons x t ih =>
      intro s hs
      have hx : (applyFinalizeStep s x).inCleanupList = false := by
        cases x <;> simp [applyFinalizeStep, hs]
      exact ih _ hx

/-- Along any trace that begins with the removal from the cleanup list, a
state in which something has been freed is a state off the cleanup list. -/
theorem freed_off_list_of_remove_head (rest p : List FinalizeStep) (b : Bool)
    (hp : p <+: FinalizeStep.removeFromCleanupList :: rest) :
    (runFinalizeSteps (initFinalizeState b) p).anyFreed = true →
    (runFinalizeSteps (initFinalizeState b) p).inCleanupList = false := by
  obtain ⟨r, hr⟩ := hp
  cases p with
  | nil =>
      intro h
      simp [runFinalizeSteps, FinalizeState.anyFreed, initFinalizeState] at h
  | cons x p1 =>
      have hx : x = FinalizeStep.removeFromCleanupList := by
        injection hr with h1 _
      subst hx
      intro _
      exact inCleanupList_stays_false p1 _ rfl

/-- C10: every finalization trace of a filter context — the
CLEAN_UP_FILTER_CONTEXT macro, and DEREFERENCE_FILTER_CONTEXT when the
reference count reaches zero — removes the context from the cleanup list as
its first step, so along every prefix of either trace a state with any
allocation freed is off the cleanup list, and the completed trace has freed
the rule-id array and client array exactly when they were present, freed the
context itself, and left it off the cleanup list. -/
theorem finalize_removes_before_free
    (hFI hCC hEng b : Bool) (rc : Int) (p q : List FinalizeStep) :
    (p <+: clean_up_filter_context_steps hFI hCC hEng →
      (runFinalizeSteps (initFinalizeState b) p).anyFreed = true →
      (runFinalizeSteps (initFinalizeState b) p).inCleanupList = false) ∧
    (q <+: dereference_filter_context_steps rc hFI hCC hEng →
      (runFinalizeSteps (initFinalizeState b) q).anyFreed = true →
      (runFinalizeSteps (initFinalizeState b) q).inCleanupList = false) ∧
    ((runFinalizeSteps (initFinalizeState b)
        (clean_up_filter_context_steps hFI hCC hEng)).contextFreed = true ∧
     (runFinalizeSteps (initFinalizeState b)
        (clean_up_filter_context_steps hFI hCC hEng)).filterIdsFreed = hFI ∧
     (runFinalizeSteps (initFinalizeState b)
        (clean_up_filter_context_steps hFI hCC
          hEng)).clientContextsFreed = hCC ∧
     (runFinalizeSteps (initFinalizeState b)
        (clean_up_filter_context_steps hFI hCC hEng)).inCleanupList =
       false) ∧
    (rc - 1 = 0 →
      (runFinalizeSteps (initFinalizeState b)
          (dereference_filter_context_steps rc hFI hCC
            hEng)).contextFreed = true ∧
      (runFinalizeSteps (initFinalizeState b)
          (dereference_filter_context_steps rc hFI hCC
            hEng)).inCleanupList = false) := by
  refine ⟨?_, ?_, ?_, ?_⟩
  · intro hp
    exact freed_off_list_of_remove_head _ p b hp
  · intro hq
    by_cases hrc : rc - 1 = 0
    · rw [dereference_filter_context_steps, if_pos hrc] at hq
      obtain ⟨r, hr⟩ := hq
      cases q with
      | nil =>
          intro h
          simp [runFinalizeSteps, FinalizeState.anyFreed,
            initFinalizeState] at h
      | cons x q1 =>
          have hx : x = FinalizeStep.leaveProviderRundown := by
            injection hr with h1 _
          subst hx
          have hq1 : q1 <+: FinalizeStep.removeFromCleanupList ::
              ((if hFI then [FinalizeStep.freeFilterIds] else []) ++
               (if hCC then [FinalizeStep.freeClientContexts] else []) ++
               (if hEng then [FinalizeStep.closeWfpEngine] else []) ++
               [FinalizeStep.freeContext]) := by
            injection hr with _ h2
            exact ⟨r, h2⟩
          exact freed_off_list_of_remove_head _ q1 b hq1
    · rw [dereference_filter_context_steps, if_neg hrc] at hq
      have hq0 : q = [] := List.eq_nil_of_prefix_nil hq
      subst hq0
      intro h
      simp [runFinalizeSteps, FinalizeState.anyFreed, initFinalizeState] at h
  · cases hFI <;> cases hCC <;> cases hEng <;> cases b <;> decide
  · intro hrc
    rw [dereference_filter_context_steps, if_pos hrc]
    cases hFI <;> cases hCC <;> cases hEng <;> cases b <;> decide

/-- Witness for C10: a concrete prefix of each finalization trace that has
freed something is off the cleanup list, and the completed traces free the
context. -/
theorem finalize_removes_before_free_witness :
    (runFinalizeSteps (initFinalizeState true)
        [FinalizeStep.removeFromCleanupList,
         FinalizeStep.freeFilterIds]).inCleanupList = false ∧
    (runFinalizeSteps (initFinalizeState true)
        [FinalizeStep.leaveProviderRundown,
         FinalizeStep.removeFromCleanupList,
         FinalizeStep.freeFilterIds]).inCleanupList = false ∧
    (runFinalizeSteps (initFinalizeState true)
        (dereference_filter_context_steps 1 true true
          true)).contextFreed = true := by
  refine ⟨?_, ?_, ?_⟩
  · exact (finalize_removes_before_free true true true true 1
      [FinalizeStep.removeFromCleanupList, FinalizeStep.freeFilterIds]
      []).1
      ⟨[FinalizeStep.freeClientContexts, FinalizeStep.closeWfpEngine,
        FinalizeStep.freeContext], by decide⟩ (by decide)
  · exact ((finalize_removes_before_free true true true true 1 []
      [FinalizeStep.leaveProviderRundown,
       FinalizeStep.removeFromCleanupList,
       FinalizeStep.freeFilterIds]).2).1
      ⟨[FinalizeStep.freeClientContexts,
        FinalizeStep.closeWfpEngine, FinalizeStep.freeContext], by decide⟩
      (by decide)
  · exact ((((finalize_removes_before_free true true true true 1 []
      []).2).2).2 (by decide)).1

/-- Each attach call below capacity succeeds and raises the count by one:
after `k ≤ N` attaches on a fresh capacity-`N` context the count is `k`. -/
theorem attachIter_eq (N : Nat) :
    ∀ k : Nat, k ≤ N →
      attachIter (mkClientArrayState N) k =
        { client_context_count_max := N, client_context_count := k } := by
  intro k
  induction k with
  | zero => intro _; rfl
  | succ k ih =>
      intro hk
      have hk1 : k ≤ N := Nat.le_of_succ_le hk
      have hlt : k < N := Nat.lt_of_succ_le hk
      show (net_ebpf_ext_add_client_context
        (attachIter (mkClientArrayState N) k)).2 = _
      rw [ih hk1]
      simp [net_ebpf_ext_add_client_context, hlt]

/-- C7: on a hook-attachment context created with fixed client-array
capacity N, every attach among the first N succeeds, raising the count by
one, and the (N+1)th attach returns EBPF_NO_MEMORY with the count left at N;
the fixed capacities are 16 for multi-attach hooks and 1 for single-attach
hooks. -/
theorem attach_capacity_no_memory (N k : Nat) (hk : k < N) :
    net_ebpf_ext_add_client_context (attachIter (mkClientArrayState N) k) =
      (EbpfResult.success,
        { client_context_count_max := N, client_context_count := k + 1 }) ∧
    net_ebpf_ext_add_client_context (attachIter (mkClientArrayState N) N) =
      (EbpfResult.noMemory,
        { client_context_count_max := N, client_context_count := N }) ∧
    NET_EBPF_EXT_MAX_CLIENTS_PER_HOOK_MULTI_ATTACH = 16 ∧
    NET_EBPF_EXT_MAX_CLIENTS_PER_HOOK_SINGLE_ATTACH = 1 := by
  refine ⟨?_, ?_, rfl, rfl⟩
  · rw [attachIter_eq N k (Nat.le_of_lt hk)]
    simp [net_ebpf_ext_add_client_context, hk]
  · rw [attachIter_eq N N (Nat.le_refl N)]
    simp [net_ebpf_ext_add_client_context]

/-- Witness for C7 at the multi-attach capacity: the first attach succeeds,
the 17th fails with NoMemory leaving the count at 16. -/
theorem attach_capacity_no_memory_witness :
    net_ebpf_ext_add_client_context
      (attachIter
        (mkClientArrayState NET_EBPF_EXT_MAX_CLIENTS_PER_HOOK_MULTI_ATTACH)
        0) =
      (EbpfResult.success,
        { client_context_count_max :=
            NET_EBPF_EXT_MAX_CLIENTS_PER_HOOK_MULTI_ATTACH,
          client_context_count := 0 + 1 }) ∧
    net_ebpf_ext_add_client_context
      (attachIter
        (mkClientArrayState NET_EBPF_EXT_MAX_CLIENTS_PER_HOOK_MULTI_ATTACH)
        NET_EBPF_EXT_MAX_CLIENTS_PER_HOOK_MULTI_ATTACH) =
      (EbpfResult.noMemory,
        { client_context_count_max :=
            NET_EBPF_EXT_MAX_CLIENTS_PER_HOOK_MULTI_ATTACH,
          client_context_count :=
            NET_EBPF_EXT_MAX_CLIENTS_PER_HOOK_MULTI_ATTACH }) ∧
    NET_EBPF_EXT_MAX_CLIENTS_PER_HOOK_MULTI_ATTACH = 16 ∧
    NET_EBPF_EXT_MAX_CLIENTS_PER_HOOK_SINGLE_ATTACH = 1 :=
  attach_capacity_no_memory NET_EBPF_EXT_MAX_CLIENTS_PER_HOOK_MULTI_ATTACH 0
    (by decide)

/-- Unregistering, in any order, exactly the contexts tracked by an armed
cleanup state signals the drain event exactly once and empties the list. -/
theorem runUnregisters_all (order : List Nat) :
    ∀ s : WfpCleanupState, order.Perm s.filterCleanupList →
      s.filterCleanupList.Nodup → s.signalEmptyFilterList = true →
      (runUnregisters s order).eventSignalCount =
        s.eventSignalCount + (if order = [] then 0 else 1) ∧
      (runUnregisters s order).filterCleanupList = [] := by
  induction order with
  | nil =>
      intro s hperm _ _
      have hl : s.filterCleanupList = [] := List.perm_nil.mp hperm.symm
      exact ⟨by simp [runUnregisters], by simp [runUnregisters, hl]⟩
  | cons a t ih =>
      intro s hperm hnd harm
      have ha : a ∈ s.filterCleanupList :=
        hperm.subset (List.mem_cons_self a t)
      have hperm2 : t.Perm (s.filterCleanupList.erase a) :=
        (hperm.trans (List.perm_cons_erase ha)).cons_inv
      have hstep : runUnregisters s (a :: t) =
          runUnregisters
            (net_ebpf_ext_remove_filter_context_from_cleanup_list s a) t :=
        rfl
      by_cases hl : s.filterCleanupList.erase a = []
      · have ht : t = [] := List.perm_nil.mp (hl ▸ hperm2)
        have hr : net_ebpf_ext_remove_filter_context_from_cleanup_list s a =
            { filterCleanupList := [],
              signalEmptyFilterList := s.signalEmptyFilterList,
              eventSignalCount := s.eventSignalCount + 1 } := by
          simp [net_ebpf_ext_remove_filter_context_from_cleanup_list, hl,
            harm]
        rw [hstep, hr, ht]
        simp [runUnregisters]
      · have hr : net_ebpf_ext_remove_filter_context_from_cleanup_list s a =
            { filterCleanupList := s.filterCleanupList.erase a,
              signalEmptyFilterList := s.signalEmptyFilterList,
              eventSignalCount := s.eventSignalCount } := by
          simp [net_ebpf_ext_remove_filter_context_from_cleanup_list,
            List.isEmpty_iff, hl]
        have ht : t ≠ [] := by
          intro hteq
          rw [hteq] at hperm2
          exact hl (List.perm_nil.mp hperm2.symm)
        rw [hstep, hr]
        obtain ⟨h1, h2⟩ := ih
          { filterCleanupList := s.filterCleanupList.erase a,
            signalEmptyFilterList := s.signalEmptyFilterList,
            eventSignalCount := s.eventSignalCount }
          hperm2 (hnd.erase a) harm
        rw [h1]
        refine ⟨?_, h2⟩
        simp [ht]

/-- Unregistering fewer distinct tracked contexts than the list holds fires
no signal and shortens the list by exactly the number unregistered. -/
theorem runUnregisters_partial (p : List Nat) :
    ∀ s : WfpCleanupState, p.Nodup →
      (∀ x ∈ p, x ∈ s.filterCleanupList) →
      p.length < s.filterCleanupList.length →
      s.filterCleanupList.Nodup →
      (runUnregisters s p).eventSignalCount = s.eventSignalCount ∧
      (runUnregisters s p).filterCleanupList.length =
        s.filterCleanupList.length - p.length := by
  induction p with
  | nil =>
      intro s _ _ _ _
      exact ⟨rfl, by simp [runUnregisters]⟩
  | cons a t ih =>
      intro s hnd hsub hlen hnds
      have ha : a ∈ s.filterCleanupList := hsub a (List.mem_cons_self a t)
      have hlerase : (s.filterCleanupList.erase a).length =
          s.filterCleanupList.length - 1 := List.length_erase_of_mem ha
      have hltt : t.length < (s.filterCleanupList.erase a).length := by
        rw [hlerase]
        have := hlen
        simp only [List.length_cons] at this
        omega
      have hne : ¬ s.filterCleanupList.erase a = [] := by
        intro h0
        rw [h0] at hltt
        simp at hltt
      have hr : net_ebpf_ext_remove_filter_context_from_cleanup_list s a =
          { filterCleanupList := s.filterCleanupList.erase a,
            signalEmptyFilterList := s.signalEmptyFilterList,
            eventSignalCount := s.eventSignalCount } := by
        simp [net_ebpf_ext_remove_filter_context_from_cleanup_list,
          List.isEmpty_iff, hne]
      have hstep : runUnregisters s (a :: t) =
          runUnregisters
            (net_ebpf_ext_remove_filter_context_from_cleanup_list s a) t :=
        rfl
      rw [hstep, hr]
      have hsubt : ∀ x ∈ t,
          x ∈ s.filterCleanupList.erase a := by
        intro x hx
        have hxa : x ≠ a := by
          intro hxe
          subst hxe
          exact (List.nodup_cons.mp hnd).1 hx
        exact (List.mem_erase_of_ne hxa).mpr (hsub x (List.mem_cons_of_mem a hx))
      obtain ⟨h1, h2⟩ := ih
        { filterCleanupList := s.filterCleanupList.erase a,
          signalEmptyFilterList := s.signalEmptyFilterList,
          eventSignalCount := s.eventSignalCount }
        (List.nodup_cons.mp hnd).2 hsubt hltt (hnds.erase a)
      refine ⟨h1, ?_⟩
      rw [h2]
      simp only [List.length_cons]
      rw [hlerase]
      omega

/-- C8: starting from an armed cleanup state tracking a duplicate-free set
of contexts, unregistering them all — serialized by the cleanup lock, in any
order — signals the drain event exactly once, empties the list, and no
unregister before the one that empties the list fires the signal. -/
theorem last_unregister_signals_drain (l order : List Nat) (k : Nat)
    (hnd : l.Nodup) (hperm : order.Perm l) (hne : order ≠ []) :
    (runUnregisters (mkCleanupState l) order).eventSignalCount = 1 ∧
    (runUnregisters (mkCleanupState l) order).filterCleanupList = [] ∧
    (k < order.length →
      (runUnregisters (mkCleanupState l)
        (order.take k)).eventSignalCount = 0) := by
  obtain ⟨h1, h2⟩ := runUnregisters_all order (mkCleanupState l) hperm hnd
    rfl
  rw [h1]
  refine ⟨by simp [mkCleanupState, hne], h2, ?_⟩
  intro hk
  have hordernd : order.Nodup := hperm.nodup_iff.mpr hnd
  have htake : (order.take k).length = k := by
    simp [List.length_take]
    omega
  obtain ⟨g1, _⟩ := runUnregisters_partial (order.take k) (mkCleanupState l)
    ((order.take_sublist k).nodup hordernd)
    (fun x hx => hperm.subset (List.mem_of_mem_take hx))
    (by rw [htake]; rw [show (mkCleanupState l).filterCleanupList = l from rfl]
        rw [← hperm.length_eq]; exact hk)
    hnd
  exact g1

/-- Witness for C8: three tracked contexts unregistered in the order 2, 3, 1;
the signal fires exactly once, only at the third unregister. -/
theorem last_unregister_signals_drain_witness :
    (runUnregisters (mkCleanupState [1, 2, 3]) [2, 3, 1]).eventSignalCount
      = 1 ∧
    (runUnregisters (mkCleanupState [1, 2, 3]) [2, 3, 1]).filterCleanupList
      = [] ∧
    (2 < [2, 3, 1].length →
      (runUnregisters (mkCleanupState [1, 2, 3])
        ([2, 3, 1].take 2)).eventSignalCount = 0) :=
  last_unregister_signals_drain [1, 2, 3] [2, 3, 1] 2 (by decide)
    (by decide) (by decide)
